import Mathlib

/-!
Verification of the degenify HTTP service (src/server.mjs, src/server-persistent.mjs).

The embedding models the route handlers of the in-memory deployment mode
(src/server.mjs) as pure functions over an explicit record list, with the
upstream generation call, the fresh id and the clock supplied as inputs.
The persistent deployment (src/server-persistent.mjs and the unnamed share
handler source) contributes the gallery row serialization and the share-page
HTML template.  Byte buffers are lists of naturals below 256; Node's base64
encode/decode (Buffer.toString('base64') / Buffer.from(s, 'base64')) is
implemented over the standard alphabet.
-/

namespace Degenify

/-- Byte buffers (Node `Buffer`) as lists of naturals, each below 256. -/
abbrev Bytes := List Nat

/-- The standard base64 alphabet used by Node's Buffer base64 codec. -/
def b64Alphabet : List Char :=
  "ABCDEFGHIJKLMNOPQRSTUVWXYZabcdefghijklmnopqrstuvwxyz0123456789+/".toList

/-- The character encoding a sextet value. -/
def encSextet (n : Nat) : Char := b64Alphabet.getD n 'A'

/-- Index of a character in the alphabet, counting from `i`. -/
def sextIdx (c : Char) : List Char → Nat → Option Nat
  | [], _ => none
  | a :: as, i => if a = c then some i else sextIdx c as (i + 1)

/-- The sextet value of an alphabet character; `none` for characters outside
the alphabet (Node's decoder skips those, including padding). -/
def sextOfChar (c : Char) : Option Nat := sextIdx c b64Alphabet 0

/-- Base64 encoding of a byte list, three bytes to four characters, with
`=` padding, as produced by `Buffer.prototype.toString('base64')`. -/
def encodeB64Chars : List Nat → List Char
  | [] => []
  | [a] => [encSextet (a / 4), encSextet (a % 4 * 16), '=', '=']
  | [a, b] => [encSextet (a / 4), encSextet (a % 4 * 16 + b / 16), encSextet (b % 16 * 4), '=']
  | a :: b :: c :: rest =>
      encSextet (a / 4) :: encSextet (a % 4 * 16 + b / 16) ::
      encSextet (b % 16 * 4 + c / 64) :: encSextet (c % 64) :: encodeB64Chars rest

/-- `Buffer.prototype.toString('base64')`. -/
def encodeB64 (bytes : Bytes) : String := String.mk (encodeB64Chars bytes)

/-- Reassemble bytes from a stream of sextets: four sextets to three bytes,
a trailing group of three sextets to two bytes, of two sextets to one byte,
a lone trailing sextet dropped. -/
def decodeSextets : List Nat → Bytes
  | w :: x :: y :: z :: rest =>
      (w * 4 + x / 16) :: (x % 16 * 16 + y / 4) :: (y % 4 * 64 + z) :: decodeSextets rest
  | [w, x] => [w * 4 + x / 16]
  | [w, x, y] => [w * 4 + x / 16, x % 16 * 16 + y / 4]
  | _ => []

/-- `Buffer.from(s, 'base64')`: characters outside the alphabet (and the
padding `=`) are ignored, the remaining sextets are reassembled into bytes. -/
def decodeB64 (s : String) : Bytes := decodeSextets (s.toList.filterMap sextOfChar)

theorem sextIdx_lt {c : Char} : ∀ (l : List Char) (i n : Nat),
    sextIdx c l i = some n → n < i + l.length
  | [], _, _, h => by simp [sextIdx] at h
  | a :: as, i, n, h => by
    rw [sextIdx] at h
    by_cases hac : a = c
    · rw [if_pos hac] at h
      have hin : i = n := Option.some.inj h
      simp only [List.length_cons]
      omega
    · rw [if_neg hac] at h
      have := sextIdx_lt as (i + 1) n h
      simp only [List.length_cons]
      omega

/-- Any decoded sextet value is below 64. -/
theorem sextOfChar_lt {c : Char} {n : Nat} (h : sextOfChar c = some n) : n < 64 := by
  have := sextIdx_lt b64Alphabet 0 n h
  simpa [b64Alphabet] using this

/-- Decoding inverts encoding on each alphabet character. -/
theorem sextOfChar_encSextet : ∀ n : Fin 64, sextOfChar (encSextet n.val) = some n.val := by
  decide

theorem sextOfChar_eq : sextOfChar '=' = none := by decide

theorem decodeSextets_lt : ∀ l : List Nat, (∀ s ∈ l, s < 64) → ∀ b ∈ decodeSextets l, b < 256
  | [], _, b, hb => by simp [decodeSextets] at hb
  | [w], _, b, hb => by simp [decodeSextets] at hb
  | [w, x], h, b, hb => by
    simp [decodeSextets] at hb
    have hw := h w (by simp)
    have hx := h x (by simp)
    omega
  | [w, x, y], h, b, hb => by
    simp [decodeSextets] at hb
    have hw := h w (by simp)
    have hx := h x (by simp)
    have hy := h y (by simp)
    rcases hb with hb | hb <;> omega
  | w :: x :: y :: z :: rest, h, b, hb => by
    simp only [decodeSextets, List.mem_cons] at hb
    have hw := h w (by simp)
    have hx := h x (by simp)
    have hy := h y (by simp)
    have hz := h z (by simp)
    rcases hb with hb | hb | hb | hb
    · omega
    · omega
    · omega
    · exact decodeSextets_lt rest (fun s hs => h s (by simp [hs])) b hb

/-- Every byte produced by the decoder is below 256. -/
theorem decodeB64_lt (s : String) : ∀ b ∈ decodeB64 s, b < 256 := by
  apply decodeSextets_lt
  intro v hv
  obtain ⟨c, _, hc⟩ := List.mem_filterMap.mp hv
  exact sextOfChar_lt hc

theorem decodeSextets_encodeChars : ∀ x : Bytes, (∀ b ∈ x, b < 256) →
    decodeSextets ((encodeB64Chars x).filterMap sextOfChar) = x
  | [], _ => by simp [encodeB64Chars, decodeSextets]
  | [a], h => by
    have ha := h a (by simp)
    have h1 := sextOfChar_encSextet ⟨a / 4, by omega⟩
    have h2 := sextOfChar_encSextet ⟨a % 4 * 16, by omega⟩
    simp only [encodeB64Chars, List.filterMap_cons, h1, h2, sextOfChar_eq,
      List.filterMap_nil, decodeSextets]
    congr 1
    omega
  | [a, b], h => by
    have ha := h a (by simp)
    have hb := h b (by simp)
    have h1 := sextOfChar_encSextet ⟨a / 4, by omega⟩
    have h2 := sextOfChar_encSextet ⟨a % 4 * 16 + b / 16, by omega⟩
    have h3 := sextOfChar_encSextet ⟨b % 16 * 4, by omega⟩
    simp only [encodeB64Chars, List.filterMap_cons, h1, h2, h3, sextOfChar_eq,
      List.filterMap_nil, decodeSextets]
    congr 1
    · omega
    · congr 1
      omega
  | a :: b :: c :: rest, h => by
    have ha := h a (by simp)
    have hb := h b (by simp)
    have hc := h c (by simp)
    have h1 := sextOfChar_encSextet ⟨a / 4, by omega⟩
    have h2 := sextOfChar_encSextet ⟨a % 4 * 16 + b / 16, by omega⟩
    have h3 := sextOfChar_encSextet ⟨b % 16 * 4 + c / 64, by omega⟩
    have h4 := sextOfChar_encSextet ⟨c % 64, by omega⟩
    have ih := decodeSextets_encodeChars rest (fun s hs => h s (by simp [hs]))
    simp only [encodeB64Chars, List.filterMap_cons, h1, h2, h3, h4, decodeSextets, ih]
    congr 1
    · omega
    · congr 1
      · omega
      · congr 1
        omega

/-- Base64 round-trip: decoding an encoded byte buffer recovers it exactly. -/
theorem decodeB64_encodeB64 (x : Bytes) (h : ∀ b ∈ x, b < 256) :
    decodeB64 (encodeB64 x) = x := by
  simpa [decodeB64, encodeB64] using decodeSextets_encodeChars x h

/-- JavaScript string truthiness of an optional string field: present and
non-empty.  Models `!prompt`, `!GOOGLE_API_KEY`, `p.inline_data?.data` used
as conditions in server.mjs. -/
def strTruthy : Option String → Bool
  | none => false
  | some s => s ≠ ""

/-- One stored gallery record, the object literal built in the
POST /api/generate handler of server.mjs (lines 113-118): `imageData` holds
the generated image re-encoded as base64, `timestamp` is the creation time
(modelled as a natural so that the gallery comparator is numeric). -/
structure Record where
  id : Nat
  prompt : String
  imageData : String
  timestamp : Nat
deriving DecidableEq

/-- One entry of `data.candidates[0].content.parts`; each field models the
optional-chained `?.data` access on the corresponding key, `none` when the
key or its `data` is absent. -/
structure UpstreamPart where
  inline_data : Option String
  inlineData : Option String
deriving DecidableEq

/-- `content` object of an upstream candidate. -/
structure UpstreamContent where
  parts : Option (List UpstreamPart)
deriving DecidableEq

/-- One element of `data.candidates`. -/
structure UpstreamCandidate where
  content : Option UpstreamContent
deriving DecidableEq

/-- JSON body of a successful upstream response. -/
structure UpstreamData where
  candidates : Option (List UpstreamCandidate)
deriving DecidableEq

/-- `data.candidates?.[0]?.content?.parts || []` (server.mjs line 99). -/
def UpstreamData.partsOrEmpty (d : UpstreamData) : List UpstreamPart :=
  match d.candidates with
  | none => []
  | some cs =>
    match cs.head? with
    | none => []
    | some cand =>
      match cand.content with
      | none => []
      | some content => content.parts.getD []

/-- Result of the `fetch` to the generation endpoint: HTTP ok flag, the JSON
body used on success, and the body text used on failure. -/
structure UpstreamResponse where
  ok : Bool
  data : UpstreamData
  errText : String
deriving DecidableEq

/-- The payload the handler's loop takes from one part: `inline_data?.data`
if truthy, else `inlineData?.data` if truthy (server.mjs lines 100-103). -/
def partPayload (p : UpstreamPart) : Option String :=
  if strTruthy p.inline_data then p.inline_data
  else if strTruthy p.inlineData then p.inlineData
  else none

/-- The `for (const p of parts)` loop of server.mjs lines 100-103: the first
payload found under either casing of the inline-data key, scanning in order. -/
def findB64 : List UpstreamPart → Option String
  | [] => none
  | p :: rest =>
    match partPayload p with
    | some d => some d
    | none => findB64 rest

/-- Server configuration read from the environment (server.mjs lines 16-22),
together with the base image file system state at request time. -/
structure GenEnv where
  googleApiKey : Option String
  baseImagePath : String
  baseImageExists : Bool
  baseImage : Bytes
deriving DecidableEq

/-- Response bodies the handlers produce. -/
inductive ResponseBody where
  /-- raw image bytes sent with `res.send(buffer)` -/
  | bytes (b : Bytes)
  /-- `res.json({ error })` -/
  | errorJson (error : String)
  /-- `res.json({ error, detail })` with a string detail -/
  | errorDetailJson (error : String) (detail : String)
  /-- `res.json({ error: 'No image returned', detail: data })` -/
  | errorDataJson (error : String) (detail : UpstreamData)
  /-- `res.json(sortedImages)` — the record list, in response order -/
  | recordsJson (records : List Record)
  /-- `res.send(html)` -/
  | htmlBody (s : String)
deriving DecidableEq

/-- An HTTP response: status, optional Content-Type and Content-Disposition
headers, body. -/
structure HttpResponse where
  status : Nat
  contentType : Option String
  contentDisposition : Option String
  body : ResponseBody
deriving DecidableEq

/-- Outcome of one POST /api/generate request: the response, the stored
record list afterwards (`generatedImages`), and whether the upstream
generation endpoint was called. -/
structure GenerateOutcome where
  response : HttpResponse
  records : List Record
  upstreamCalled : Bool
deriving DecidableEq

/-- The POST /api/generate handler of server.mjs (lines 40-134).  Inputs the
handler reads from the outside world are parameters: the environment, the
stored records, `req.body.prompt`, the upstream response the fetch would
yield, `Date.now() + Math.random()` as the fresh id, and the current time. -/
def generateHandler (env : GenEnv) (st : List Record) (prompt : Option String)
    (upstream : UpstreamResponse) (freshId : Nat) (now : Nat) : GenerateOutcome :=
  if ¬ strTruthy prompt then
    ⟨⟨400, none, none, .errorJson "prompt required"⟩, st, false⟩
  else if ¬ env.baseImageExists then
    ⟨⟨400, none, none, .errorJson ("Base image missing at " ++ env.baseImagePath)⟩, st, false⟩
  else if ¬ strTruthy env.googleApiKey then
    ⟨⟨200, some "image/png", none, .bytes env.baseImage⟩, st, false⟩
  else if ¬ upstream.ok then
    ⟨⟨502, none, none, .errorDetailJson "Google API error" upstream.errText⟩, st, true⟩
  else
    match findB64 upstream.data.partsOrEmpty with
    | none => ⟨⟨502, none, none, .errorDataJson "No image returned" upstream.data⟩, st, true⟩
    | some b64 =>
      let imgBuffer := decodeB64 b64
      let imageRecord : Record :=
        { id := freshId, prompt := prompt.getD "",
          imageData := encodeB64 imgBuffer, timestamp := now }
      ⟨⟨200, some "image/png", none, .bytes imgBuffer⟩, st ++ [imageRecord], true⟩

/-- `[...generatedImages].sort((a, b) => new Date(b.timestamp) - new Date(a.timestamp))`
(server.mjs line 138): a stable sort under the newest-first comparator. -/
def sortNewestFirst (st : List Record) : List Record :=
  st.mergeSort (fun a b => b.timestamp ≤ a.timestamp)

/-- The GET /api/gallery handler of server.mjs (lines 137-140); it reads the
store and never writes, so the record list is returned unchanged. -/
def galleryHandler (st : List Record) : HttpResponse × List Record :=
  (⟨200, none, none, .recordsJson (sortNewestFirst st)⟩, st)

/-- The GET /api/image/:id handler of server.mjs (lines 143-154). -/
def imageHandler (st : List Record) (imageId : Nat) : HttpResponse × List Record :=
  match st.find? (fun img => img.id == imageId) with
  | none => (⟨404, none, none, .errorJson "Image not found"⟩, st)
  | some image =>
    (⟨200, some "image/png", none, .bytes (decodeB64 image.imageData)⟩, st)

/-- The GET /api/download/:id handler of server.mjs (lines 157-169). -/
def downloadHandler (st : List Record) (imageId : Nat) : HttpResponse × List Record :=
  match st.find? (fun img => img.id == imageId) with
  | none => (⟨404, none, none, .errorJson "Image not found"⟩, st)
  | some image =>
    (⟨200, some "image/png",
      some ("attachment; filename=\"meme-" ++ toString imageId ++ ".png\""),
      .bytes (decodeB64 image.imageData)⟩, st)

/-- One row of the `images` table in the persistent deployment
(server-persistent.mjs lines 42-50). -/
structure DbRow where
  id : String
  prompt : String
  cloudinary_url : String
  cloudinary_public_id : String
  timestamp : Nat
deriving DecidableEq

/-- JSON values appearing in gallery response fields. -/
inductive JsonValue where
  | num (n : Nat)
  | str (s : String)
deriving DecidableEq

/-- The JSON object a stored record serializes to in the in-memory gallery
response: the object literal of server.mjs lines 113-118, sent verbatim by
`res.json(sortedImages)`. -/
def recordJson (r : Record) : List (String × JsonValue) :=
  [("id", JsonValue.num r.id), ("prompt", JsonValue.str r.prompt),
   ("imageData", JsonValue.str r.imageData), ("timestamp", JsonValue.num r.timestamp)]

/-- The JSON object one database row maps to in the persistent gallery
response (server-persistent.mjs lines 161-166). -/
def galleryRowJson (row : DbRow) : List (String × JsonValue) :=
  [("id", JsonValue.str row.id), ("prompt", JsonValue.str row.prompt),
   ("imageData", JsonValue.str row.cloudinary_url), ("timestamp", JsonValue.num row.timestamp)]

/-- The part of the share-page template literal (unnamed source, lines
215-269) that precedes the `image.prompt` interpolation, with its own
interpolations (`imageUrl` is the direct-serve endpoint URL; the share URL
is inlined).  Literal braces of the inline stylesheet are written escaped. -/
def shareHtmlHead (protocol host imageId : String) : String :=
  let imageUrl := protocol ++ "://" ++ host ++ "/api/image/" ++ imageId
  "\n<!DOCTYPE html>\n<html lang=\"en\">\n<head>\n    <meta charset=\"UTF-8\">\n    <meta name=\"viewport\" content=\"width=device-width, initial-scale=1.0\">\n    <title>Epic Degeneration by Degenify</title>\n    <meta name=\"description\" content=\"Check out this epic degeneration I created with Degenify! 🎩 🔥 $DEGEN\">\n    \n    <!-- Open Graph / Facebook -->\n    <meta property=\"og:type\" content=\"website\">\n    <meta property=\"og:url\" content=\""
  ++ (protocol ++ "://" ++ host ++ "/api/share/" ++ imageId)
  ++ "\">\n    <meta property=\"og:title\" content=\"Epic Degeneration by Degenify\">\n    <meta property=\"og:description\" content=\"Check out this epic degeneration I created with Degenify! 🎩 🔥 $DEGEN\">\n    <meta property=\"og:image\" content=\""
  ++ imageUrl
  ++ "\">\n    <meta property=\"og:image:width\" content=\"1024\">\n    <meta property=\"og:image:height\" content=\"1024\">\n    <meta property=\"og:image:type\" content=\"image/png\">\n    \n    <!-- Twitter -->\n    <meta property=\"twitter:card\" content=\"summary_large_image\">\n    <meta property=\"twitter:url\" content=\""
  ++ (protocol ++ "://" ++ host ++ "/api/share/" ++ imageId)
  ++ "\">\n    <meta property=\"twitter:title\" content=\"Epic Degeneration by Degenify\">\n    <meta property=\"twitter:description\" content=\"Check out this epic degeneration I created with Degenify! 🎩 🔥 $DEGEN\">\n    <meta property=\"twitter:image\" content=\""
  ++ imageUrl
  ++ "\">\n    \n    <style>\n        body \x7b \n            margin: 0; \n            padding: 20px; \n            font-family: Arial, sans-serif; \n            text-align: center;\n            background: linear-gradient(135deg, #667eea 0%, #764ba2 100%);\n            color: white;\n        \x7d\n        img \x7b \n            max-width: 100%; \n            height: auto; \n            border-radius: 10px;\n            box-shadow: 0 10px 30px rgba(0,0,0,0.3);\n        \x7d\n        h1 \x7b margin-bottom: 20px; \x7d\n        .prompt \x7b \n            background: rgba(255,255,255,0.1); \n            padding: 15px; \n            border-radius: 10px; \n            margin: 20px 0;\n            backdrop-filter: blur(10px);\n        \x7d\n    </style>\n</head>\n<body>\n    <h1>🎩 Epic Degeneration by Degenify</h1>\n    <div class=\"prompt\">\n        <strong>Prompt:</strong> "

/-- The part of the share-page template literal (unnamed source, lines
270-274) that follows the `image.prompt` interpolation. -/
def shareHtmlTail (protocol host imageId : String) : String :=
  let imageUrl := protocol ++ "://" ++ host ++ "/api/image/" ++ imageId
  "\n    </div>\n    <img src=\""
  ++ imageUrl
  ++ "\" alt=\"Epic Degeneration\">\n    <p>Created with Degenify - Transform any situation! 🔥</p>\n</body>\n</html>"

/-- The HTML document built by the GET /api/share/:id handler of the
persistent server (unnamed source, lines 213-274): the template literal with
`image.prompt` interpolated verbatim between head and tail. -/
def shareHtml (protocol host imageId : String) (image : DbRow) : String :=
  shareHtmlHead protocol host imageId ++ image.prompt ++ shareHtmlTail protocol host imageId

/-- On the success path (truthy prompt and key, base image present, upstream
ok, payload found) the generate handler returns the decoded bytes and appends
the freshly-built record. -/
theorem generateHandler_success_eq (env : GenEnv) (st : List Record)
    (prompt : Option String) (upstream : UpstreamResponse) (freshId now : Nat)
    (b64 : String) (hp : strTruthy prompt = true) (hb : env.baseImageExists = true)
    (hk : strTruthy env.googleApiKey = true) (hok : upstream.ok = true)
    (hfind : findB64 upstream.data.partsOrEmpty = some b64) :
    generateHandler env st prompt upstream freshId now =
      ⟨⟨200, some "image/png", none, ResponseBody.bytes (decodeB64 b64)⟩,
       st ++ [⟨freshId, prompt.getD "", encodeB64 (decodeB64 b64), now⟩], true⟩ := by
  simp [generateHandler, hp, hb, hk, hok, hfind]

/-- A part yields no payload exactly when neither casing of the inline-data
key carries a truthy `data` field. -/
theorem partPayload_eq_none_iff (p : UpstreamPart) :
    partPayload p = none ↔
      strTruthy p.inline_data = false ∧ strTruthy p.inlineData = false := by
  by_cases h1 : strTruthy p.inline_data
  · cases hd : p.inline_data with
    | none => rw [hd] at h1; simp [strTruthy] at h1
    | some d =>
      rw [hd] at h1
      simp [partPayload, hd, h1]
  · by_cases h2 : strTruthy p.inlineData
    · cases hd : p.inlineData with
      | none => rw [hd] at h2; simp [strTruthy] at h2
      | some d =>
        rw [hd] at h2
        simp [partPayload, hd, h1, h2]
    · simp [partPayload, h1, h2]

/-- The part scan finds nothing exactly when no part carries a truthy payload
under either casing of the inline-data key. -/
theorem findB64_eq_none_iff : ∀ parts : List UpstreamPart,
    findB64 parts = none ↔
      ∀ p ∈ parts, strTruthy p.inline_data = false ∧ strTruthy p.inlineData = false
  | [] => by simp [findB64]
  | p :: rest => by
    have ih := findB64_eq_none_iff rest
    cases hpp : partPayload p with
    | some d =>
      simp only [findB64, hpp]
      constructor
      · intro h
        exact absurd h (by simp)
      · intro h
        have hnone := (partPayload_eq_none_iff p).mpr (h p (by simp))
        rw [hpp] at hnone
        exact absurd hnone (by simp)
    | none =>
      simp only [findB64, hpp]
      constructor
      · intro h q hq
        rcases List.mem_cons.mp hq with hq | hq
        · subst hq
          exact (partPayload_eq_none_iff q).mp hpp
        · exact ih.mp h q hq
      · intro h
        exact ih.mpr fun q hq => h q (by simp [hq])

/-- C1: for every non-empty prompt, when the upstream generation call
succeeds and returns an image payload, POST /api/generate responds with the
image bytes under an image content type and appends exactly one new gallery
record whose prompt field equals the submitted prompt text. -/
theorem generate_success_appends_matching_record (env : GenEnv) (st : List Record)
    (p b64 : String) (upstream : UpstreamResponse) (freshId now : Nat)
    (hp : p ≠ "") (hb : env.baseImageExists = true)
    (hk : strTruthy env.googleApiKey = true) (hok : upstream.ok = true)
    (hfind : findB64 upstream.data.partsOrEmpty = some b64) :
    (generateHandler env st (some p) upstream freshId now).response.status = 200 ∧
    (generateHandler env st (some p) upstream freshId now).response.contentType =
      some "image/png" ∧
    (generateHandler env st (some p) upstream freshId now).response.body =
      ResponseBody.bytes (decodeB64 b64) ∧
    ∃ r : Record,
      (generateHandler env st (some p) upstream freshId now).records = st ++ [r] ∧
      r.prompt = p := by
  rw [generateHandler_success_eq env st (some p) upstream freshId now b64
    (by simp [strTruthy, hp]) hb hk hok hfind]
  exact ⟨rfl, rfl, rfl, ⟨freshId, p, encodeB64 (decodeB64 b64), now⟩, rfl, rfl⟩

/-- Environment with an API key and a present base image, for witnesses. -/
def envA : GenEnv :=
  { googleApiKey := some "k", baseImagePath := "public/base.png",
    baseImageExists := true, baseImage := [1, 2, 3] }

/-- An upstream part carrying one camel-cased image payload. -/
def upstreamPartA : UpstreamPart := { inline_data := none, inlineData := some "QUJD" }

/-- A successful upstream response carrying `upstreamPartA`. -/
def upstreamA : UpstreamResponse :=
  { ok := true,
    data := { candidates := some [⟨some ⟨some [upstreamPartA]⟩⟩] },
    errText := "" }

theorem generate_success_appends_matching_record_witness :
    ("hat" ≠ "") ∧ envA.baseImageExists = true ∧
    strTruthy envA.googleApiKey = true ∧ upstreamA.ok = true ∧
    findB64 upstreamA.data.partsOrEmpty = some "QUJD" ∧
    ((generateHandler envA [] (some "hat") upstreamA 5 7).response.status = 200 ∧
     (generateHandler envA [] (some "hat") upstreamA 5 7).response.contentType =
       some "image/png" ∧
     (generateHandler envA [] (some "hat") upstreamA 5 7).response.body =
       ResponseBody.bytes (decodeB64 "QUJD") ∧
     ∃ r : Record,
       (generateHandler envA [] (some "hat") upstreamA 5 7).records = [] ++ [r] ∧
       r.prompt = "hat") :=
  ⟨by decide, rfl, rfl, rfl, by decide,
   generate_success_appends_matching_record envA [] "hat" "QUJD" upstreamA 5 7
     (by decide) rfl rfl rfl (by decide)⟩

/-- C2: a POST /api/generate request whose prompt is empty or missing gets
status 400, leaves the stored records unchanged and performs no upstream
call. -/
theorem generate_empty_prompt_rejected (env : GenEnv) (st : List Record)
    (prompt : Option String) (upstream : UpstreamResponse) (freshId now : Nat)
    (hp : strTruthy prompt = false) :
    generateHandler env st prompt upstream freshId now =
      ⟨⟨400, none, none, ResponseBody.errorJson "prompt required"⟩, st, false⟩ := by
  simp [generateHandler, hp]

theorem generate_empty_prompt_rejected_witness :
    (strTruthy (none : Option String) = false ∧
      generateHandler envA [] none upstreamA 5 7 =
        ⟨⟨400, none, none, ResponseBody.errorJson "prompt required"⟩, [], false⟩) ∧
    (strTruthy (some "") = false ∧
      generateHandler envA [] (some "") upstreamA 5 7 =
        ⟨⟨400, none, none, ResponseBody.errorJson "prompt required"⟩, [], false⟩) :=
  ⟨⟨rfl, generate_empty_prompt_rejected envA [] none upstreamA 5 7 rfl⟩,
   ⟨by decide, generate_empty_prompt_rejected envA [] (some "") upstreamA 5 7 (by decide)⟩⟩

/-- C10: with no API credential configured, a request with a non-empty
prompt and an existing base image gets status 200 with the unmodified base
image bytes, the upstream endpoint is not called and no record is created. -/
theorem generate_without_key_returns_base_image (env : GenEnv) (st : List Record)
    (prompt : Option String) (upstream : UpstreamResponse) (freshId now : Nat)
    (hp : strTruthy prompt = true) (hb : env.baseImageExists = true)
    (hk : strTruthy env.googleApiKey = false) :
    generateHandler env st prompt upstream freshId now =
      ⟨⟨200, some "image/png", none, ResponseBody.bytes env.baseImage⟩, st, false⟩ := by
  simp [generateHandler, hp, hb, hk]

/-- Environment with no API key, for the C10 witness. -/
def envNoKey : GenEnv :=
  { googleApiKey := none, baseImagePath := "public/base.png",
    baseImageExists := true, baseImage := [1, 2, 3] }

theorem generate_without_key_returns_base_image_witness :
    strTruthy (some "hat") = true ∧ envNoKey.baseImageExists = true ∧
    strTruthy envNoKey.googleApiKey = false ∧
    generateHandler envNoKey [] (some "hat") upstreamA 5 7 =
      ⟨⟨200, some "image/png", none, ResponseBody.bytes envNoKey.baseImage⟩, [], false⟩ :=
  ⟨by decide, rfl, rfl,
   generate_without_key_returns_base_image envNoKey [] (some "hat") upstreamA 5 7
     (by decide) rfl rfl⟩

/-- C3: on a successful upstream response the handler scans the nested parts
for a payload under both casings of the inline-data key; the request ends in
the distinct 502 "No image returned" response carrying the raw upstream data
— with no record created — exactly when no payload is found under either
key. -/
theorem generate_no_image_502_iff (env : GenEnv) (st : List Record)
    (prompt : Option String) (upstream : UpstreamResponse) (freshId now : Nat)
    (hp : strTruthy prompt = true) (hb : env.baseImageExists = true)
    (hk : strTruthy env.googleApiKey = true) (hok : upstream.ok = true) :
    (findB64 upstream.data.partsOrEmpty = none ↔
      generateHandler env st prompt upstream freshId now =
        ⟨⟨502, none, none, ResponseBody.errorDataJson "No image returned" upstream.data⟩,
         st, true⟩) ∧
    (∀ parts : List UpstreamPart, findB64 parts = none ↔
      ∀ p ∈ parts, strTruthy p.inline_data = false ∧ strTruthy p.inlineData = false) := by
  refine ⟨⟨fun hfind => by simp [generateHandler, hp, hb, hk, hok, hfind], fun heq => ?_⟩,
    findB64_eq_none_iff⟩
  cases hfind : findB64 upstream.data.partsOrEmpty with
  | none => rfl
  | some b64 =>
    rw [generateHandler_success_eq env st prompt upstream freshId now b64
      hp hb hk hok hfind] at heq
    simp at heq

/-- An upstream response whose only part carries no payload under either
casing, for the C3 witness. -/
def upstreamNoImage : UpstreamResponse :=
  { ok := true,
    data := { candidates := some [⟨some ⟨some [⟨none, none⟩]⟩⟩] },
    errText := "" }

theorem generate_no_image_502_iff_witness :
    strTruthy (some "hat") = true ∧ envA.baseImageExists = true ∧
    strTruthy envA.googleApiKey = true ∧ upstreamNoImage.ok = true ∧
    ((findB64 upstreamNoImage.data.partsOrEmpty = none ↔
      generateHandler envA [] (some "hat") upstreamNoImage 5 7 =
        ⟨⟨502, none, none,
          ResponseBody.errorDataJson "No image returned" upstreamNoImage.data⟩,
         [], true⟩) ∧
     (∀ parts : List UpstreamPart, findB64 parts = none ↔
       ∀ p ∈ parts, strTruthy p.inline_data = false ∧ strTruthy p.inlineData = false)) :=
  ⟨by decide, rfl, rfl, rfl,
   generate_no_image_502_iff envA [] (some "hat") upstreamNoImage 5 7
     (by decide) rfl rfl rfl⟩

/-- C8: a GET /api/image/:id or GET /api/download/:id request with an id held
by no stored record — hence never assigned by a successful generate call —
gets a 404 response and leaves the records unchanged. -/
theorem unknown_id_both_handlers_404 (st : List Record) (imageId : Nat)
    (h : ∀ r ∈ st, r.id ≠ imageId) :
    imageHandler st imageId =
      (⟨404, none, none, ResponseBody.errorJson "Image not found"⟩, st) ∧
    downloadHandler st imageId =
      (⟨404, none, none, ResponseBody.errorJson "Image not found"⟩, st) := by
  have hfind : st.find? (fun img => img.id == imageId) = none :=
    List.find?_eq_none.mpr fun r hr => by simp [h r hr]
  exact ⟨by simp [imageHandler, hfind], by simp [downloadHandler, hfind]⟩

theorem unknown_id_both_handlers_404_witness :
    (∀ r ∈ [(⟨1, "A", "", 0⟩ : Record)], r.id ≠ 2) ∧
    (imageHandler [⟨1, "A", "", 0⟩] 2 =
      (⟨404, none, none, ResponseBody.errorJson "Image not found"⟩, [⟨1, "A", "", 0⟩]) ∧
     downloadHandler [⟨1, "A", "", 0⟩] 2 =
      (⟨404, none, none, ResponseBody.errorJson "Image not found"⟩, [⟨1, "A", "", 0⟩])) :=
  ⟨by decide, unknown_id_both_handlers_404 [⟨1, "A", "", 0⟩] 2 (by decide)⟩

/-- C9: the store is written only by the persistence step of a successful
generate: the generate handler either leaves the records unchanged or appends
exactly one record carrying the fresh id and creation time at the end — all
pre-existing records kept identical — and the gallery, image and download
handlers always return the records unchanged. -/
theorem records_immutable_only_generate_writes (env : GenEnv) (st : List Record)
    (prompt : Option String) (upstream : UpstreamResponse) (freshId now imageId : Nat) :
    ((generateHandler env st prompt upstream freshId now).records = st ∨
      ∃ r : Record, (generateHandler env st prompt upstream freshId now).records = st ++ [r] ∧
        r.id = freshId ∧ r.timestamp = now) ∧
    (galleryHandler st).2 = st ∧
    (imageHandler st imageId).2 = st ∧
    (downloadHandler st imageId).2 = st := by
  refine ⟨?_, rfl, ?_, ?_⟩
  · unfold generateHandler
    by_cases hp : strTruthy prompt
    · by_cases hb : env.baseImageExists
      · by_cases hk : strTruthy env.googleApiKey
        · by_cases hok : upstream.ok
          · cases hfind : findB64 upstream.data.partsOrEmpty with
            | none => simp [hp, hb, hk, hok, hfind]
            | some b64 =>
              simp only [hp, hb, hk, hok, hfind]
              right
              exact ⟨⟨freshId, prompt.getD "", encodeB64 (decodeB64 b64), now⟩,
                by simp, rfl, rfl⟩
          · simp [hp, hb, hk, hok]
        · simp [hp, hb, hk]
      · simp [hp, hb]
    · simp [hp]
  · unfold imageHandler
    cases st.find? (fun img => img.id == imageId) <;> rfl
  · unfold downloadHandler
    cases st.find? (fun img => img.id == imageId) <;> rfl

/-- C5 counterexample: a gallery response element does not carry a field
named `imageLocation` — the third field of both deployment modes' gallery
JSON objects is named `imageData`. -/
theorem gallery_item_fields_counterexample :
    (recordJson ⟨1, "A", "QUJD", 0⟩).map Prod.fst ≠
      ["id", "prompt", "imageLocation", "timestamp"] ∧
    (galleryRowJson ⟨"1", "A", "https://res.cloudinary.com/demo.png", "degenify/1", 0⟩).map
        Prod.fst ≠
      ["id", "prompt", "imageLocation", "timestamp"] := by
  decide

/-- C5 (amended): every element of the gallery response is an object with
exactly the fields id, prompt, imageData and timestamp, in both deployment
modes. -/
theorem gallery_item_fields (r : Record) (row : DbRow) :
    (recordJson r).map Prod.fst = ["id", "prompt", "imageData", "timestamp"] ∧
    (galleryRowJson row).map Prod.fst = ["id", "prompt", "imageData", "timestamp"] := by
  simp [recordJson, galleryRowJson]

/-- A stored row whose prompt contains a script tag. -/
def scriptRow : DbRow :=
  { id := "1", prompt := "<script>alert(1)</script>",
    cloudinary_url := "https://res.cloudinary.com/demo.png",
    cloudinary_public_id := "degenify/1", timestamp := 0 }

/-- C7 exhibit: the share page built for a record whose prompt contains a
`<script>` tag emits that tag verbatim — unescaped — in the output HTML,
because the renderer splices `image.prompt` directly into the template. -/
theorem share_page_emits_unescaped_script :
    ∃ pre post : String,
      shareHtml "https" "example.com" "1" scriptRow =
        pre ++ "<script>alert(1)</script>" ++ post :=
  ⟨shareHtmlHead "https" "example.com" "1", shareHtmlTail "https" "example.com" "1", rfl⟩

/-- C4 counterexample: three records inserted in order A, B, C but sharing
one timestamp are listed [A, B, C] by the gallery — the stable sort keeps
insertion order on ties — not [C, B, A] as claimed. -/
theorem gallery_order_ties_counterexample :
    (galleryHandler [⟨1, "A", "", 100⟩, ⟨2, "B", "", 100⟩, ⟨3, "C", "", 100⟩]).1.body =
      ResponseBody.recordsJson [⟨1, "A", "", 100⟩, ⟨2, "B", "", 100⟩, ⟨3, "C", "", 100⟩] ∧
    (ResponseBody.recordsJson [(⟨1, "A", "", 100⟩ : Record), ⟨2, "B", "", 100⟩, ⟨3, "C", "", 100⟩] ≠
      ResponseBody.recordsJson [⟨3, "C", "", 100⟩, ⟨2, "B", "", 100⟩, ⟨1, "A", "", 100⟩]) := by
  constructor
  · simp [galleryHandler, sortNewestFirst, List.mergeSort, List.splitInTwo, List.splitAt,
      List.splitAt.go, List.merge]
  · decide

/-- C4 (amended): the gallery returns all stored records — a permutation of
the store — ordered by timestamp descending, with an empty list (not an
error) for an empty store; and records A then B then C whose timestamps
strictly increase in insertion order are listed [C, B, A]. -/
theorem gallery_sorted_newest_first (st : List Record) (A B C : Record)
    (h1 : A.timestamp < B.timestamp) (h2 : B.timestamp < C.timestamp) :
    galleryHandler st =
      (⟨200, none, none, ResponseBody.recordsJson (sortNewestFirst st)⟩, st) ∧
    (sortNewestFirst st).Perm st ∧
    List.Pairwise (fun a b => b.timestamp ≤ a.timestamp) (sortNewestFirst st) ∧
    sortNewestFirst ([] : List Record) = [] ∧
    sortNewestFirst [A, B, C] = [C, B, A] := by
  refine ⟨rfl, List.mergeSort_perm st _, ?_, by simp [sortNewestFirst], ?_⟩
  · have hs := @List.sorted_mergeSort Record
      (fun a b : Record => decide (b.timestamp ≤ a.timestamp))
      (fun a b c hab hbc => by
        simp only [decide_eq_true_eq] at hab hbc ⊢
        omega)
      (fun a b => by
        simp only [Bool.or_eq_true, decide_eq_true_eq]
        omega)
      st
    exact hs.imp fun h => by simpa using h
  · have hab : A.timestamp ≤ B.timestamp := h1.le
    have hbc : B.timestamp ≤ C.timestamp := h2.le
    have hac : A.timestamp ≤ C.timestamp := hab.trans hbc
    have nba : ¬ B.timestamp ≤ A.timestamp := by omega
    have ncb : ¬ C.timestamp ≤ B.timestamp := by omega
    have nca : ¬ C.timestamp ≤ A.timestamp := by omega
    simp [sortNewestFirst, List.mergeSort, List.splitInTwo, List.splitAt, List.splitAt.go,
      List.merge, hab, hbc, hac, nba, ncb, nca]

theorem gallery_sorted_newest_first_witness :
    ((⟨1, "A", "", 10⟩ : Record).timestamp < (⟨2, "B", "", 20⟩ : Record).timestamp) ∧
    ((⟨2, "B", "", 20⟩ : Record).timestamp < (⟨3, "C", "", 30⟩ : Record).timestamp) ∧
    (galleryHandler [] =
      (⟨200, none, none, ResponseBody.recordsJson (sortNewestFirst [])⟩, []) ∧
    (sortNewestFirst []).Perm [] ∧
    List.Pairwise (fun a b : Record => b.timestamp ≤ a.timestamp) (sortNewestFirst []) ∧
    sortNewestFirst ([] : List Record) = [] ∧
    sortNewestFirst [⟨1, "A", "", 10⟩, ⟨2, "B", "", 20⟩, ⟨3, "C", "", 30⟩] =
      [⟨3, "C", "", 30⟩, ⟨2, "B", "", 20⟩, ⟨1, "A", "", 10⟩]) :=
  ⟨by decide, by decide,
   gallery_sorted_newest_first [] ⟨1, "A", "", 10⟩ ⟨2, "B", "", 20⟩ ⟨3, "C", "", 30⟩
     (by decide) (by decide)⟩

/-- C6: the bytes a successful POST /api/generate responds with equal the
bytes GET /api/image/:id later returns for the created record's id, the id
being fresh (ids are unique per record). -/
theorem generate_image_roundtrip (env : GenEnv) (st : List Record)
    (p b64 : String) (upstream : UpstreamResponse) (freshId now : Nat)
    (hp : p ≠ "") (hb : env.baseImageExists = true)
    (hk : strTruthy env.googleApiKey = true) (hok : upstream.ok = true)
    (hfind : findB64 upstream.data.partsOrEmpty = some b64)
    (hfresh : ∀ r ∈ st, r.id ≠ freshId) :
    ∃ imageBytes : Bytes,
      (generateHandler env st (some p) upstream freshId now).response.body =
        ResponseBody.bytes imageBytes ∧
      (imageHandler (generateHandler env st (some p) upstream freshId now).records
          freshId).1.body =
        ResponseBody.bytes imageBytes := by
  rw [generateHandler_success_eq env st (some p) upstream freshId now b64
    (by simp [strTruthy, hp]) hb hk hok hfind]
  refine ⟨decodeB64 b64, rfl, ?_⟩
  have hfindst : st.find? (fun img => img.id == freshId) = none :=
    List.find?_eq_none.mpr fun r hr => by simp [hfresh r hr]
  have hfound : (st ++ [⟨freshId, (some p).getD "", encodeB64 (decodeB64 b64), now⟩] :
      List Record).find? (fun img => img.id == freshId) =
      some ⟨freshId, (some p).getD "", encodeB64 (decodeB64 b64), now⟩ := by
    rw [List.find?_append, hfindst]
    simp [List.find?]
  simp only [imageHandler, hfound]
  rw [decodeB64_encodeB64 _ (decodeB64_lt b64)]

theorem generate_image_roundtrip_witness :
    ("hat" ≠ "") ∧ envA.baseImageExists = true ∧
    strTruthy envA.googleApiKey = true ∧ upstreamA.ok = true ∧
    findB64 upstreamA.data.partsOrEmpty = some "QUJD" ∧
    (∀ r ∈ ([] : List Record), r.id ≠ 5) ∧
    ∃ imageBytes : Bytes,
      (generateHandler envA [] (some "hat") upstreamA 5 7).response.body =
        ResponseBody.bytes imageBytes ∧
      (imageHandler (generateHandler envA [] (some "hat") upstreamA 5 7).records 5).1.body =
        ResponseBody.bytes imageBytes :=
  ⟨by decide, rfl, rfl, rfl, by decide, by decide,
   generate_image_roundtrip envA [] "hat" "QUJD" upstreamA 5 7
     (by decide) rfl rfl rfl (by decide) (by decide)⟩

end Degenify
